import Mathlib

set_option maxHeartbeats 1000000

/-!
Verification of the passwordless-client-js WebAuthn client
(src/passwordless.ts) against its natural-language specification.

Strings are modelled as lists of characters, byte buffers as lists of
natural numbers below 256, and JavaScript exceptions as an explicit
error value carried in `Except`.
-/

/-- A JavaScript error value: only the constructor name and the message
are observable to the code under study. -/
structure JsError where
  name : String
  message : String
deriving DecidableEq, Repr

/-- Modelled from the spec of the platform base64 alphabet (RFC 4648):
the character for the 6-bit value `n`. -/
def b64Char (n : Nat) : Char :=
  if n < 26 then Char.ofNat (65 + n)
  else if n < 52 then Char.ofNat (97 + (n - 26))
  else if n < 62 then Char.ofNat (48 + (n - 52))
  else if n = 62 then '+'
  else '/'

/-- Modelled from the spec: the 6-bit value of a base64 alphabet
character, `none` for a character outside the alphabet. -/
def b64Index (c : Char) : Option Nat :=
  if 65 ≤ c.toNat ∧ c.toNat ≤ 90 then some (c.toNat - 65)
  else if 97 ≤ c.toNat ∧ c.toNat ≤ 122 then some (26 + (c.toNat - 97))
  else if 48 ≤ c.toNat ∧ c.toNat ≤ 57 then some (52 + (c.toNat - 48))
  else if c = '+' then some 62
  else if c = '/' then some 63
  else none

/-- Modelled from the spec of the platform `btoa` builtin: standard
base64 encoding with `=` padding, of a string whose character codes are
the given byte values.  The calling code only ever passes codes below
256, where `btoa` cannot throw, so the model is total. -/
def btoa : List Nat → List Char
  | [] => []
  | [a] => [b64Char (a / 4), b64Char (a % 4 * 16), '=', '=']
  | [a, b] => [b64Char (a / 4), b64Char (a % 4 * 16 + b / 16), b64Char (b % 16 * 4), '=']
  | a :: b :: c :: rest =>
      b64Char (a / 4) :: b64Char (a % 4 * 16 + b / 16) ::
        b64Char (b % 16 * 4 + c / 64) :: b64Char (c % 64) :: btoa rest

/-- Modelled from the spec of forgiving base64 decoding (WHATWG infra,
used by `atob`): when the input length is a multiple of four, up to two
trailing `=` characters are removed before decoding. -/
def stripPad (s : List Char) : List Char :=
  match s.reverse with
  | '=' :: '=' :: r => r.reverse
  | '=' :: r => r.reverse
  | _ => s

/-- The 6-bit values of all characters of the input, `none` when some
character is outside the base64 alphabet. -/
def b64Indices : List Char → Option (List Nat)
  | [] => some []
  | c :: r =>
    match b64Index c, b64Indices r with
    | some i, some is => some (i :: is)
    | _, _ => none

/-- Reassemble bytes from 6-bit values; incomplete trailing groups keep
only their complete bytes, discarding leftover bits (forgiving base64). -/
def atobDecode : List Nat → List Nat
  | [] => []
  | [_] => []
  | [i1, i2] => [i1 * 4 + i2 / 16]
  | [i1, i2, i3] => [i1 * 4 + i2 / 16, i2 % 16 * 16 + i3 / 4]
  | i1 :: i2 :: i3 :: i4 :: rest =>
      (i1 * 4 + i2 / 16) :: (i2 % 16 * 16 + i3 / 4) :: (i3 % 4 * 64 + i4) :: atobDecode rest

/-- Modelled from the spec of the platform `atob` builtin (forgiving
base64 decode; the whitespace-removal step is omitted because no string
handled by this client contains whitespace): strip padding when the
length is a multiple of four, reject a residual length of one, reject
characters outside the base64 alphabet, then reassemble the bytes. -/
def atob (s : List Char) : Except JsError (List Nat) :=
  let t := if s.length % 4 = 0 then stripPad s else s
  if t.length % 4 = 1 then
    .error ⟨"InvalidCharacterError", "The string to be decoded is not correctly encoded."⟩
  else
    match b64Indices t with
    | some is => .ok (atobDecode is)
    | none => .error ⟨"InvalidCharacterError", "The string to be decoded is not correctly encoded."⟩

/-- The character translation applied by `base64ToBase64Url`:
`+` to `-` and `/` to `_`. -/
def toUrlChar (c : Char) : Char :=
  if c = '+' then '-' else if c = '/' then '_' else c

/-- The character translation applied by `base64UrlToBase64`:
`-` to `+` and `_` to `/`. -/
def toStdChar (c : Char) : Char :=
  if c = '-' then '+' else if c = '_' then '/' else c

/-- The effect of the `replace` of the regular expression matching
trailing `=` characters with the empty string: remove the maximal run
of `=` at the end. -/
def dropTrailingEq (s : List Char) : List Char :=
  (s.reverse.dropWhile (fun c => c == '=')).reverse

/-- `base64ToBase64Url` of passwordless.ts: translate `+` to `-` and
`/` to `_`, then strip trailing `=` padding. -/
def base64ToBase64Url (base64 : List Char) : List Char :=
  dropTrailingEq (base64.map toUrlChar)

/-- `base64UrlToBase64` of passwordless.ts: translate `-` to `+` and
`_` to `/` (no padding is reinstated). -/
def base64UrlToBase64 (base64Url : List Char) : List Char :=
  base64Url.map toStdChar

/-- The dynamic value handed to `coerceToArrayBuffer`: a string, or
anything else (which the source rejects with a TypeError). -/
inductive CoerceBufferInput where
  | str (s : List Char)
  | other
deriving DecidableEq

/-- `coerceToArrayBuffer` of passwordless.ts: on a string, translate
base64url to base64 and decode with `atob`, collecting the character
codes of the decoded string as bytes; on any other value, throw a
TypeError. -/
def coerceToArrayBuffer : CoerceBufferInput → Except JsError (List Nat)
  | .str s => atob (base64UrlToBase64 s)
  | .other => .error ⟨"TypeError", "Could not coerce to ArrayBuffer"⟩

/-- The body of the encoding path of `coerceToBase64Url` once a byte
array is in hand: build the binary string, `btoa` it, and convert the
result to base64url. -/
def coerceToBase64UrlBytes (bytes : List Nat) : List Char :=
  base64ToBase64Url (btoa bytes)

/-- Modelled from the spec of the platform `Uint8Array.from` element
conversion (ToUint8) for integer elements: reduction modulo 2^8 into
the range 0..255. -/
def toUint8 (v : Int) : Nat := (v % 256).toNat

/-- The dynamic value handed to `coerceToBase64Url`: a plain array (of
arbitrary integers), an ArrayBuffer, a Uint8Array, or anything else
(which the source rejects). -/
inductive CoerceB64Input where
  | arr (l : List Int)
  | arrayBuffer (bytes : List Nat)
  | uint8 (bytes : List Nat)
  | other
deriving DecidableEq

/-- `coerceToBase64Url` of passwordless.ts: a plain array is first
coerced element-wise by `Uint8Array.from`, an ArrayBuffer is viewed as
its bytes, a Uint8Array is used as is; anything else throws.  The three
accepted shapes then share the same encoding loop. -/
def coerceToBase64Url : CoerceB64Input → Except JsError (List Char)
  | .arr l => .ok (coerceToBase64UrlBytes (l.map toUint8))
  | .arrayBuffer bytes => .ok (coerceToBase64UrlBytes bytes)
  | .uint8 bytes => .ok (coerceToBase64UrlBytes bytes)
  | .other => .error ⟨"Error", "Could not coerce to string"⟩

/-! ### Round-trip of the transcoder -/

/-- The unpadded base64 encoding: `btoa` with the trailing `=` padding
already removed.  Introduced only to structure the round-trip proof. -/
def encAux : List Nat → List Char
  | [] => []
  | [a] => [b64Char (a / 4), b64Char (a % 4 * 16)]
  | [a, b] => [b64Char (a / 4), b64Char (a % 4 * 16 + b / 16), b64Char (b % 16 * 4)]
  | a :: b :: c :: rest =>
      b64Char (a / 4) :: b64Char (a % 4 * 16 + b / 16) ::
        b64Char (b % 16 * 4 + c / 64) :: b64Char (c % 64) :: encAux rest

theorem b64Index_b64Char : ∀ n, n < 64 → b64Index (b64Char n) = some n := by decide

theorem b64Char_ne_eq : ∀ n, n < 64 → b64Char n ≠ '=' := by decide

theorem toStd_toUrl_b64Char : ∀ n, n < 64 → toStdChar (toUrlChar (b64Char n)) = b64Char n := by
  decide

theorem toUrl_b64Char_not_special : ∀ n, n < 64 →
    toUrlChar (b64Char n) ≠ '+' ∧ toUrlChar (b64Char n) ≠ '/' ∧ toUrlChar (b64Char n) ≠ '=' := by
  decide

theorem toUrlChar_eq_eq_iff (c : Char) : toUrlChar c = '=' ↔ c = '=' := by
  unfold toUrlChar
  split
  · simp_all
  · split
    · simp_all
    · simp

theorem toStdChar_eq_eq_iff (c : Char) : toStdChar c = '=' ↔ c = '=' := by
  unfold toStdChar
  split
  · simp_all
  · split
    · simp_all
    · simp

theorem dropWhile_eq_self_of_ne (l : List Char) (h : ∀ c ∈ l, c ≠ '=') :
    l.dropWhile (fun c => c == '=') = l := by
  cases l with
  | nil => rfl
  | cons c r =>
    have : (c == '=') = false := by
      simpa using h c (List.mem_cons_self c r)
    simp [List.dropWhile, this]

theorem dropTrailingEq_append (xs ys : List Char) (h : ∀ c ∈ xs, c ≠ '=') :
    dropTrailingEq (xs ++ ys) = xs ++ dropTrailingEq ys := by
  unfold dropTrailingEq
  rw [List.reverse_append, List.dropWhile_append]
  have hxs : xs.reverse.dropWhile (fun c => c == '=') = xs.reverse :=
    dropWhile_eq_self_of_ne _ (fun c hc => h c (List.mem_reverse.mp hc))
  split
  · rename_i hempty
    rw [List.isEmpty_iff] at hempty
    simp [hempty, hxs]
  · rw [List.reverse_append, List.reverse_reverse]

theorem dropWhile_map_eqChar (f : Char → Char) (hf : ∀ c, f c = '=' ↔ c = '=') :
    ∀ l : List Char, (l.map f).dropWhile (fun c => c == '=') =
      (l.dropWhile (fun c => c == '=')).map f := by
  intro l
  induction l with
  | nil => rfl
  | cons c r ih =>
    by_cases hc : c = '='
    · have h1 : (f c == '=') = true := by simp [(hf c).mpr hc]
      have h2 : (c == '=') = true := by simp [hc]
      simp [List.dropWhile, h1, h2, ih]
    · have h1 : (f c == '=') = false := by
        simp only [beq_eq_false_iff_ne, ne_eq]
        exact fun hfc => hc ((hf c).mp hfc)
      have h2 : (c == '=') = false := by simpa using hc
      simp [List.dropWhile, h1, h2]

theorem dropTrailingEq_map (f : Char → Char) (hf : ∀ c, f c = '=' ↔ c = '=')
    (l : List Char) : dropTrailingEq (l.map f) = (dropTrailingEq l).map f := by
  unfold dropTrailingEq
  rw [← List.map_reverse, dropWhile_map_eqChar f hf, List.map_reverse]

theorem encAux_chars (B : List Nat) (h : ∀ b ∈ B, b < 256) :
    ∀ c ∈ encAux B, ∃ n, n < 64 ∧ c = b64Char n := by
  induction B using btoa.induct with
  | case1 => intro c hc; simp [encAux] at hc
  | case2 a =>
    intro c hc
    have ha : a < 256 := h a (by simp)
    simp only [encAux, List.mem_cons, List.not_mem_nil, or_false] at hc
    rcases hc with rfl | rfl
    · exact ⟨a / 4, by omega, rfl⟩
    · exact ⟨a % 4 * 16, by omega, rfl⟩
  | case3 a b =>
    intro c hc
    have ha : a < 256 := h a (by simp)
    have hb : b < 256 := h b (by simp)
    simp only [encAux, List.mem_cons, List.not_mem_nil, or_false] at hc
    rcases hc with rfl | rfl | rfl
    · exact ⟨a / 4, by omega, rfl⟩
    · exact ⟨a % 4 * 16 + b / 16, by omega, rfl⟩
    · exact ⟨b % 16 * 4, by omega, rfl⟩
  | case4 a b c rest ih =>
    intro x hx
    have ha : a < 256 := h a (by simp)
    have hb : b < 256 := h b (by simp)
    have hc : c < 256 := h c (by simp)
    have hrest : ∀ y ∈ rest, y < 256 := fun y hy => h y (by simp [hy])
    simp only [encAux, List.mem_cons] at hx
    rcases hx with rfl | rfl | rfl | rfl | hx
    · exact ⟨a / 4, by omega, rfl⟩
    · exact ⟨a % 4 * 16 + b / 16, by omega, rfl⟩
    · exact ⟨b % 16 * 4 + c / 64, by omega, rfl⟩
    · exact ⟨c % 64, by omega, rfl⟩
    · exact ih hrest x hx

theorem encAux_no_eq (B : List Nat) (h : ∀ b ∈ B, b < 256) :
    ∀ c ∈ encAux B, c ≠ '=' := by
  intro c hc
  obtain ⟨n, hn, rfl⟩ := encAux_chars B h c hc
  exact b64Char_ne_eq n hn

theorem dropTrailingEq_btoa (B : List Nat) (h : ∀ b ∈ B, b < 256) :
    dropTrailingEq (btoa B) = encAux B := by
  induction B using btoa.induct with
  | case1 => rfl
  | case2 a =>
    have ha : a < 256 := h a (by simp)
    have h1 := b64Char_ne_eq (a / 4) (by omega)
    have h2 := b64Char_ne_eq (a % 4 * 16) (by omega)
    show dropTrailingEq ([b64Char (a / 4), b64Char (a % 4 * 16)] ++ ['=', '=']) = _
    rw [dropTrailingEq_append _ _ (by simp [h1, h2])]
    rfl
  | case3 a b =>
    have ha : a < 256 := h a (by simp)
    have hb : b < 256 := h b (by simp)
    have h1 := b64Char_ne_eq (a / 4) (by omega)
    have h2 := b64Char_ne_eq (a % 4 * 16 + b / 16) (by omega)
    have h3 := b64Char_ne_eq (b % 16 * 4) (by omega)
    show dropTrailingEq
      ([b64Char (a / 4), b64Char (a % 4 * 16 + b / 16), b64Char (b % 16 * 4)] ++ ['=']) = _
    rw [dropTrailingEq_append _ _ (by simp [h1, h2, h3])]
    rfl
  | case4 a b c rest ih =>
    have ha : a < 256 := h a (by simp)
    have hb : b < 256 := h b (by simp)
    have hc : c < 256 := h c (by simp)
    have hrest : ∀ y ∈ rest, y < 256 := fun y hy => h y (by simp [hy])
    have h1 := b64Char_ne_eq (a / 4) (by omega)
    have h2 := b64Char_ne_eq (a % 4 * 16 + b / 16) (by omega)
    have h3 := b64Char_ne_eq (b % 16 * 4 + c / 64) (by omega)
    have h4 := b64Char_ne_eq (c % 64) (by omega)
    show dropTrailingEq
      ([b64Char (a / 4), b64Char (a % 4 * 16 + b / 16),
        b64Char (b % 16 * 4 + c / 64), b64Char (c % 64)] ++ btoa rest) = _
    rw [dropTrailingEq_append _ _ (by simp [h1, h2, h3, h4]), ih hrest]
    rfl

theorem stripPad_eq_self (s : List Char) (h : ∀ c ∈ s, c ≠ '=') : stripPad s = s := by
  unfold stripPad
  split
  · rename_i r heq
    exfalso
    have hm : '=' ∈ s.reverse := by rw [heq]; simp
    exact h '=' (List.mem_reverse.mp hm) rfl
  · rename_i r heq
    exfalso
    have hm : '=' ∈ s.reverse := by rw [heq]; simp
    exact h '=' (List.mem_reverse.mp hm) rfl
  · rfl

theorem encAux_length_mod (B : List Nat) : (encAux B).length % 4 ≠ 1 := by
  induction B using btoa.induct with
  | case1 => simp [encAux]
  | case2 a => simp [encAux]
  | case3 a b => simp [encAux]
  | case4 a b c rest ih =>
    simp only [encAux, List.length_cons]
    omega

theorem b64Indices_encAux (B : List Nat) (h : ∀ b ∈ B, b < 256) :
    ∃ is, b64Indices (encAux B) = some is ∧ atobDecode is = B := by
  induction B using btoa.induct with
  | case1 => exact ⟨[], rfl, rfl⟩
  | case2 a =>
    have ha : a < 256 := h a (by simp)
    refine ⟨[a / 4, a % 4 * 16], ?_, ?_⟩
    · simp [encAux, b64Indices, b64Index_b64Char (a / 4) (by omega),
        b64Index_b64Char (a % 4 * 16) (by omega)]
    · simp [atobDecode]
      omega
  | case3 a b =>
    have ha : a < 256 := h a (by simp)
    have hb : b < 256 := h b (by simp)
    refine ⟨[a / 4, a % 4 * 16 + b / 16, b % 16 * 4], ?_, ?_⟩
    · simp [encAux, b64Indices, b64Index_b64Char (a / 4) (by omega),
        b64Index_b64Char (a % 4 * 16 + b / 16) (by omega),
        b64Index_b64Char (b % 16 * 4) (by omega)]
    · simp [atobDecode]
      omega
  | case4 a b c rest ih =>
    have ha : a < 256 := h a (by simp)
    have hb : b < 256 := h b (by simp)
    have hc : c < 256 := h c (by simp)
    have hrest : ∀ y ∈ rest, y < 256 := fun y hy => h y (by simp [hy])
    obtain ⟨is, his, hdec⟩ := ih hrest
    refine ⟨(a / 4) :: (a % 4 * 16 + b / 16) :: (b % 16 * 4 + c / 64) :: (c % 64) :: is, ?_, ?_⟩
    · simp [encAux, b64Indices, b64Index_b64Char (a / 4) (by omega),
        b64Index_b64Char (a % 4 * 16 + b / 16) (by omega),
        b64Index_b64Char (b % 16 * 4 + c / 64) (by omega),
        b64Index_b64Char (c % 64) (by omega), his]
    · simp [atobDecode, hdec]
      omega

theorem atob_encAux (B : List Nat) (h : ∀ b ∈ B, b < 256) : atob (encAux B) = .ok B := by
  obtain ⟨is, his, hdec⟩ := b64Indices_encAux B h
  have hsp : stripPad (encAux B) = encAux B := stripPad_eq_self _ (encAux_no_eq B h)
  have hlen : (encAux B).length % 4 ≠ 1 := encAux_length_mod B
  have ht : (if (encAux B).length % 4 = 0 then stripPad (encAux B) else encAux B) = encAux B := by
    split
    · exact hsp
    · rfl
  simp only [atob, ht, if_neg hlen, his, hdec]

/-- Round-trip of the transcoder at the level of the two source
functions: decoding the encoding of any byte sequence recovers it
exactly. -/
theorem coerce_roundtrip (B : List Nat) (h : ∀ b ∈ B, b < 256) :
    coerceToArrayBuffer (.str (coerceToBase64UrlBytes B)) = .ok B := by
  show atob (base64UrlToBase64 (base64ToBase64Url (btoa B))) = .ok B
  unfold base64UrlToBase64 base64ToBase64Url
  rw [dropTrailingEq_map toUrlChar toUrlChar_eq_eq_iff, dropTrailingEq_btoa B h,
    List.map_map]
  have hmap : (encAux B).map (toStdChar ∘ toUrlChar) = (encAux B).map id :=
    List.map_congr_left (fun c hc => by
      obtain ⟨n, hn, rfl⟩ := encAux_chars B h c hc
      exact toStd_toUrl_b64Char n hn)
  rw [hmap, List.map_id]
  exact atob_encAux B h

/-! ### The client configuration and the wire bodies -/

/-- The `Config` of passwordless.ts, after the constructor has merged
the caller-supplied fields over the defaults.  No method of the client
ever writes to it, so the model threads it as a read-only value. -/
structure Config where
  apiUrl : String
  apiKey : String
  origin : String
  rpid : String
deriving DecidableEq, Repr

/-- `createHeaders` of passwordless.ts. -/
def createHeaders (cfg : Config) : List (String × String) :=
  [("ApiKey", cfg.apiKey), ("Content-Type", "application/json")]

/-- The JSON body sent by `registerBegin`. -/
structure RegisterBeginBody where
  token : String
  RPID : String
  Origin : String
deriving DecidableEq, Repr

/-- The inner attestation part of the complete-register body. -/
structure RegisterAttestation where
  AttestationObject : List Char
  clientDataJson : List Char
deriving DecidableEq, Repr

/-- The `response` object of the complete-register body. -/
structure RegisterCredentialJson where
  id : String
  type : String
  rawId : List Char
  extensions : String
  response : RegisterAttestation
deriving DecidableEq, Repr

/-- The JSON body sent by `registerComplete`. -/
structure RegisterCompleteBody where
  sessionId : String
  response : RegisterCredentialJson
  nickname : String
  RPID : String
  Origin : String
deriving DecidableEq, Repr

/-- The JSON body sent by `signinBegin`.  A field holding `none` models
a property whose value is `undefined`, which `JSON.stringify` omits
from the transmitted document altogether. -/
structure SigninBeginBody where
  userId : Option String
  aliasValue : Option String
  RPID : String
  Origin : String
deriving DecidableEq, Repr

/-- The inner assertion part of the complete-signin body. -/
structure SigninAssertion where
  authenticatorData : List Char
  clientDataJson : List Char
  signature : List Char
deriving DecidableEq, Repr

/-- The `response` object of the complete-signin body. -/
structure SigninCredentialJson where
  id : String
  type : String
  rawId : List Char
  extensions : String
  response : SigninAssertion
deriving DecidableEq, Repr

/-- The JSON body sent by `signinComplete`. -/
structure SigninCompleteBody where
  sessionId : String
  response : SigninCredentialJson
  RPID : String
  Origin : String
deriving DecidableEq, Repr

/-- One of the four JSON documents the client can transmit. -/
inductive FetchBody where
  | registerBeginB (body : RegisterBeginBody)
  | registerCompleteB (body : RegisterCompleteBody)
  | signinBeginB (body : SigninBeginBody)
  | signinCompleteB (body : SigninCompleteBody)
deriving DecidableEq, Repr

/-- One network request as issued by `fetch`: URL, headers and body. -/
structure FetchRequest where
  url : String
  headers : List (String × String)
  body : FetchBody
deriving DecidableEq, Repr

/-! ### Backend responses and platform results -/

/-- The parsed begin-register response: the ceremony options as the
backend serialized them, with the binary fields still dynamic values
(expected to be base64url strings). -/
structure RegisterBeginData where
  challenge : CoerceBufferInput
  userId : CoerceBufferInput
  excludeCredentials : Option (List CoerceBufferInput)
deriving DecidableEq

/-- The parsed JSON of the begin-register response. -/
structure RegisterBeginResponse where
  sessionId : String
  data : RegisterBeginData
deriving DecidableEq

/-- The ceremony options after the in-place transcoding loop of
`register`: all binary fields decoded to byte buffers. -/
structure BinaryRegisterOptions where
  challenge : List Nat
  userId : List Nat
  excludeCredentials : Option (List (List Nat))
deriving DecidableEq, Repr

/-- The parsed begin-signin response data. -/
structure SigninBeginData where
  challenge : CoerceBufferInput
  allowCredentials : Option (List CoerceBufferInput)
deriving DecidableEq

/-- The parsed JSON of the begin-signin response. -/
structure SigninBeginResponse where
  sessionId : String
  data : SigninBeginData
deriving DecidableEq

/-- The ceremony options after the in-place transcoding loop of
`signin`. -/
structure BinarySigninOptions where
  challenge : List Nat
  allowCredentials : Option (List (List Nat))
deriving DecidableEq, Repr

/-- The parsed JSON of the complete-signin response; `signin` returns
its `data` field. -/
structure SigninCompleteResponse where
  data : String
deriving DecidableEq, Repr

/-- The platform credential returned by `navigator.credentials.create`,
with its attestation response payload. -/
structure RegistrationCredential where
  id : String
  type : String
  rawId : List Nat
  extensions : String
  attestationObject : List Nat
  clientDataJSON : List Nat
deriving DecidableEq, Repr

/-- The platform credential returned by `navigator.credentials.get`,
with its assertion response payload. -/
structure AssertionCredential where
  id : String
  type : String
  rawId : List Nat
  extensions : String
  authenticatorData : List Nat
  clientDataJSON : List Nat
  signature : List Nat
deriving DecidableEq, Repr

/-! ### Transcoding of the ceremony options -/

/-- The `forEach` loop decoding each credential id in place; the first
decoding failure aborts the ceremony. -/
def transcodeIds : List CoerceBufferInput → Except JsError (List (List Nat))
  | [] => .ok []
  | v :: r =>
    match coerceToArrayBuffer v, transcodeIds r with
    | .ok b, .ok bs => .ok (b :: bs)
    | .error e, _ => .error e
    | _, .error e => .error e

/-- Lines 33–37 of passwordless.ts: decode `challenge`, `user.id` and
every `excludeCredentials[i].id` from base64url to binary. -/
def transcodeRegisterData (d : RegisterBeginData) : Except JsError BinaryRegisterOptions :=
  match coerceToArrayBuffer d.challenge with
  | .error e => .error e
  | .ok ch =>
    match coerceToArrayBuffer d.userId with
    | .error e => .error e
    | .ok uid =>
      match d.excludeCredentials with
      | none => .ok ⟨ch, uid, none⟩
      | some l =>
        match transcodeIds l with
        | .error e => .error e
        | .ok bs => .ok ⟨ch, uid, some bs⟩

/-- Lines 133–136 of passwordless.ts: decode `challenge` and every
`allowCredentials[i].id`. -/
def transcodeSigninData (d : SigninBeginData) : Except JsError BinarySigninOptions :=
  match coerceToArrayBuffer d.challenge with
  | .error e => .error e
  | .ok ch =>
    match d.allowCredentials with
    | none => .ok ⟨ch, none⟩
    | some l =>
      match transcodeIds l with
      | .error e => .error e
      | .ok bs => .ok ⟨ch, some bs⟩

/-! ### Request builders -/

/-- The begin-register request of `registerBegin`. -/
def registerBeginRequest (cfg : Config) (token : String) : FetchRequest :=
  { url := cfg.apiUrl ++ "/register/begin"
    headers := createHeaders cfg
    body := .registerBeginB { token := token, RPID := cfg.rpid, Origin := cfg.origin } }

/-- The complete-register JSON body built by `registerComplete` from
the platform credential.  Every binary field goes through
`coerceToBase64Url` on a `Uint8Array`, whose encoding path is
`coerceToBase64UrlBytes`. -/
def registerCompleteBody (cfg : Config) (credential : RegistrationCredential)
    (sessionId credentialNickname : String) : RegisterCompleteBody :=
  { sessionId := sessionId
    response :=
      { id := credential.id
        type := credential.type
        rawId := coerceToBase64UrlBytes credential.rawId
        extensions := credential.extensions
        response :=
          { AttestationObject := coerceToBase64UrlBytes credential.attestationObject
            clientDataJson := coerceToBase64UrlBytes credential.clientDataJSON } }
    nickname := credentialNickname
    RPID := cfg.rpid
    Origin := cfg.origin }

/-- The complete-register request of `registerComplete`. -/
def registerCompleteRequest (cfg : Config) (body : RegisterCompleteBody) : FetchRequest :=
  { url := cfg.apiUrl ++ "/register/complete"
    headers := createHeaders cfg
    body := .registerCompleteB body }

/-- The selector objects accepted by the private `signin`: the object
literal `\x7buserId\x7d` built by `signinWithId`, or the object literal
`\x7balias\x7d` built by `signinWithAlias`. -/
inductive SigninMethod where
  | userId (s : String)
  | alias (s : String)
deriving DecidableEq, Repr

/-- The begin-signin JSON body of `signinBegin`: a property is set
exactly when the corresponding key is present in the selector object,
and is `undefined` (hence omitted by `JSON.stringify`) otherwise. -/
def signinBeginBody (cfg : Config) (signinMethod : SigninMethod) : SigninBeginBody :=
  { userId :=
      match signinMethod with
      | .userId u => some u
      | .alias _ => none
    aliasValue :=
      match signinMethod with
      | .userId _ => none
      | .alias a => some a
    RPID := cfg.rpid
    Origin := cfg.origin }

/-- The begin-signin request of `signinBegin`. -/
def signinBeginRequest (cfg : Config) (signinMethod : SigninMethod) : FetchRequest :=
  { url := cfg.apiUrl ++ "/signin/begin"
    headers := createHeaders cfg
    body := .signinBeginB (signinBeginBody cfg signinMethod) }

/-- The complete-signin JSON body built by `signinComplete` from the
platform credential. -/
def signinCompleteBody (cfg : Config) (credential : AssertionCredential)
    (sessionId : String) : SigninCompleteBody :=
  { sessionId := sessionId
    response :=
      { id := credential.id
        type := credential.type
        rawId := coerceToBase64UrlBytes credential.rawId
        extensions := credential.extensions
        response :=
          { authenticatorData := coerceToBase64UrlBytes credential.authenticatorData
            clientDataJson := coerceToBase64UrlBytes credential.clientDataJSON
            signature := coerceToBase64UrlBytes credential.signature } }
    RPID := cfg.rpid
    Origin := cfg.origin }

/-- The complete-signin request of `signinComplete`. -/
def signinCompleteRequest (cfg : Config) (body : SigninCompleteBody) : FetchRequest :=
  { url := cfg.apiUrl ++ "/signin/complete"
    headers := createHeaders cfg
    body := .signinCompleteB body }

/-! ### Ceremony drivers -/

/-- The error thrown by `assertBrowserSupported` (outside the try
block, so never wrapped). -/
def unsupportedError : JsError :=
  ⟨"Error", "WebAuthn and PublicKeyCredentials are not supported on this browser/device"⟩

/-- The error thrown by `register` when the platform resolves with no
credential. -/
def nullCredentialError : JsError :=
  ⟨"Error", "Failed to create credential (navigator.credentials.create)"⟩

/-- Modelled from JavaScript property-access semantics: reading the
`response` property of a null credential inside `signinComplete` throws
a TypeError before any request is issued.  The engine-specific message
text is irrelevant to the claims; only the fact that it is not the
missing-credential ceremony error matters. -/
def nullAccessError : JsError :=
  ⟨"TypeError", "Cannot read properties of null"⟩

/-- The catch block of `register`: log, then rethrow a fresh `Error`
embedding the original message. -/
def wrapRegisterError (e : JsError) : JsError :=
  ⟨"Error", "Passwordless register failed: " ++ e.message⟩

/-- The catch block of `signin`. -/
def wrapSigninError (e : JsError) : JsError :=
  ⟨"Error", "Passwordless signin failed: " ++ e.message⟩

/-- The environment a single registration ceremony runs against: the
capability-guard answer, the outcome of the begin fetch, the platform
create operation, and the outcome of the complete fetch. -/
structure RegisterEnv where
  supported : Bool
  beginResult : Except JsError RegisterBeginResponse
  create : BinaryRegisterOptions → Except JsError (Option RegistrationCredential)
  completeResult : RegisterCompleteBody → Except JsError String

/-- The environment a single sign-in ceremony runs against. -/
structure SigninEnv where
  supported : Bool
  beginResult : Except JsError SigninBeginResponse
  get : BinarySigninOptions → Except JsError (Option AssertionCredential)
  completeResult : SigninCompleteBody → Except JsError SigninCompleteResponse

/-- The observable outcome of one ceremony: the network requests it
issued, in order, and its returned value or thrown error. -/
structure RunResult (α : Type) where
  calls : List FetchRequest
  result : Except JsError α
deriving Repr

/-- `register` of passwordless.ts.  The guard runs before the try
block; everything after it is wrapped by the catch block.  The function
is `Promise<void>`: on success it resolves with `undefined`, modelled
as `none`; the complete-register response is parsed (awaited) but
discarded. -/
def register (cfg : Config) (token credentialNickname : String) (env : RegisterEnv)
    : RunResult (Option String) :=
  if env.supported then
    let beginCall := registerBeginRequest cfg token
    match env.beginResult with
    | .error e => ⟨[beginCall], .error (wrapRegisterError e)⟩
    | .ok registration =>
      match transcodeRegisterData registration.data with
      | .error e => ⟨[beginCall], .error (wrapRegisterError e)⟩
      | .ok opts =>
        match env.create opts with
        | .error e => ⟨[beginCall], .error (wrapRegisterError e)⟩
        | .ok none => ⟨[beginCall], .error (wrapRegisterError nullCredentialError)⟩
        | .ok (some credential) =>
          let body := registerCompleteBody cfg credential registration.sessionId
            credentialNickname
          match env.completeResult body with
          | .error e =>
            ⟨[beginCall, registerCompleteRequest cfg body], .error (wrapRegisterError e)⟩
          | .ok _ => ⟨[beginCall, registerCompleteRequest cfg body], .ok none⟩
  else ⟨[], .error unsupportedError⟩

/-- The private `signin` of passwordless.ts.  There is no null check on
the credential returned by `navigator.credentials.get`; a null
credential reaches `signinComplete`, whose very first property access
throws a TypeError before the complete fetch is issued. -/
def signin (cfg : Config) (signinMethod : SigninMethod) (env : SigninEnv)
    : RunResult String :=
  if env.supported then
    let beginCall := signinBeginRequest cfg signinMethod
    match env.beginResult with
    | .error e => ⟨[beginCall], .error (wrapSigninError e)⟩
    | .ok sgn =>
      match transcodeSigninData sgn.data with
      | .error e => ⟨[beginCall], .error (wrapSigninError e)⟩
      | .ok opts =>
        match env.get opts with
        | .error e => ⟨[beginCall], .error (wrapSigninError e)⟩
        | .ok none => ⟨[beginCall], .error (wrapSigninError nullAccessError)⟩
        | .ok (some credential) =>
          let body := signinCompleteBody cfg credential sgn.sessionId
          match env.completeResult body with
          | .error e =>
            ⟨[beginCall, signinCompleteRequest cfg body], .error (wrapSigninError e)⟩
          | .ok r => ⟨[beginCall, signinCompleteRequest cfg body], .ok r.data⟩
  else ⟨[], .error unsupportedError⟩

/-- `signinWithId` of passwordless.ts. -/
def signinWithId (cfg : Config) (userId : String) (env : SigninEnv) : RunResult String :=
  signin cfg (.userId userId) env

/-- `signinWithAlias` of passwordless.ts. -/
def signinWithAlias (cfg : Config) (a : String) (env : SigninEnv) : RunResult String :=
  signin cfg (.alias a) env

/-! ### Projections and shape lemmas for the call traces -/

/-- The relying-party id attached to a transmitted body. -/
def FetchBody.rpidOf : FetchBody → String
  | .registerBeginB b => b.RPID
  | .registerCompleteB b => b.RPID
  | .signinBeginB b => b.RPID
  | .signinCompleteB b => b.RPID

/-- The origin attached to a transmitted body. -/
def FetchBody.originOf : FetchBody → String
  | .registerBeginB b => b.Origin
  | .registerCompleteB b => b.Origin
  | .signinBeginB b => b.Origin
  | .signinCompleteB b => b.Origin

theorem register_calls_shape (cfg : Config) (token nick : String) (env : RegisterEnv) :
    (register cfg token nick env).calls = [] ∨
    (register cfg token nick env).calls = [registerBeginRequest cfg token] ∨
    ∃ credential sid, (register cfg token nick env).calls =
      [registerBeginRequest cfg token,
       registerCompleteRequest cfg (registerCompleteBody cfg credential sid nick)] := by
  unfold register
  split
  · split
    · exact Or.inr (Or.inl rfl)
    · split
      · exact Or.inr (Or.inl rfl)
      · split
        · exact Or.inr (Or.inl rfl)
        · exact Or.inr (Or.inl rfl)
        · dsimp only
          split
          · exact Or.inr (Or.inr ⟨_, _, rfl⟩)
          · exact Or.inr (Or.inr ⟨_, _, rfl⟩)
  · exact Or.inl rfl

theorem signin_calls_shape (cfg : Config) (m : SigninMethod) (env : SigninEnv) :
    (signin cfg m env).calls = [] ∨
    (signin cfg m env).calls = [signinBeginRequest cfg m] ∨
    ∃ credential sid, (signin cfg m env).calls =
      [signinBeginRequest cfg m,
       signinCompleteRequest cfg (signinCompleteBody cfg credential sid)] := by
  unfold signin
  split
  · split
    · exact Or.inr (Or.inl rfl)
    · split
      · exact Or.inr (Or.inl rfl)
      · split
        · exact Or.inr (Or.inl rfl)
        · exact Or.inr (Or.inl rfl)
        · dsimp only
          split
          · exact Or.inr (Or.inr ⟨_, _, rfl⟩)
          · exact Or.inr (Or.inr ⟨_, _, rfl⟩)
  · exact Or.inl rfl

theorem signin_calls_head (cfg : Config) (m : SigninMethod) (env : SigninEnv)
    (hs : env.supported = true) :
    (signin cfg m env).calls.head? = some (signinBeginRequest cfg m) := by
  unfold signin
  rw [hs]
  simp only [if_true]
  split
  · rfl
  · split
    · rfl
    · split
      · rfl
      · rfl
      · split
        · rfl
        · rfl

/-! ### Concrete fixtures for the witnesses and counterexamples -/

/-- A concrete client configuration. -/
def cfg0 : Config :=
  ⟨"https://api.example", "key0", "https://app.example", "app.example"⟩

/-- A concrete begin-register response whose challenge is the base64url
string AQID (bytes 1, 2, 3) and whose user id is BA (byte 4). -/
def regBeginResp0 : RegisterBeginResponse :=
  ⟨"sess0", ⟨.str ['A', 'Q', 'I', 'D'], .str ['B', 'A'], none⟩⟩

/-- A concrete platform registration credential. -/
def regCred0 : RegistrationCredential :=
  ⟨"cred0", "public-key", [1, 2, 3, 4], "ext0", [9, 8], [7]⟩

/-- A registration environment where every step succeeds. -/
def regEnv0 : RegisterEnv :=
  ⟨true, .ok regBeginResp0, fun _ => .ok (some regCred0), fun _ => .ok "completed"⟩

/-- A registration environment where the platform resolves null. -/
def regEnvNull : RegisterEnv :=
  ⟨true, .ok regBeginResp0, fun _ => .ok none, fun _ => .ok "completed"⟩

/-- A registration environment on an unsupported browser. -/
def regEnvUnsup : RegisterEnv :=
  ⟨false, .ok regBeginResp0, fun _ => .ok (some regCred0), fun _ => .ok "completed"⟩

/-- A concrete begin-signin response. -/
def sgnBeginResp0 : SigninBeginResponse :=
  ⟨"sess1", ⟨.str ['A', 'Q', 'I', 'D'], none⟩⟩

/-- A concrete platform assertion credential. -/
def sgnCred0 : AssertionCredential :=
  ⟨"cred1", "public-key", [1, 2, 3, 4], "ext1", [5], [6], [7]⟩

/-- A sign-in environment where every step succeeds. -/
def sgnEnv0 : SigninEnv :=
  ⟨true, .ok sgnBeginResp0, fun _ => .ok (some sgnCred0), fun _ => .ok ⟨"token0"⟩⟩

/-- A sign-in environment where the platform resolves null. -/
def sgnEnvNull : SigninEnv :=
  ⟨true, .ok sgnBeginResp0, fun _ => .ok none, fun _ => .ok ⟨"token0"⟩⟩

/-- A sign-in environment on an unsupported browser. -/
def sgnEnvUnsup : SigninEnv :=
  ⟨false, .ok sgnBeginResp0, fun _ => .ok (some sgnCred0), fun _ => .ok ⟨"token0"⟩⟩

/-! ### The claims -/

/-- C1: for every byte sequence B, decoding the encoding round-trips
exactly: `coerceToBase64Url` on the bytes succeeds, and
`coerceToArrayBuffer` of the resulting base64url string yields exactly
B again, with no truncation and no corruption for any byte value
0..255. -/
theorem claim1_roundtrip_exact (B : List Nat) (h : ∀ b ∈ B, b < 256) :
    coerceToBase64Url (.uint8 B) = .ok (coerceToBase64UrlBytes B) ∧
    coerceToArrayBuffer (.str (coerceToBase64UrlBytes B)) = .ok B :=
  ⟨rfl, coerce_roundtrip B h⟩

theorem claim1_roundtrip_exact_witness :
    (∀ b ∈ ([255, 0, 128, 7, 9] : List Nat), b < 256) ∧
    (coerceToBase64Url (.uint8 [255, 0, 128, 7, 9]) =
        .ok (coerceToBase64UrlBytes [255, 0, 128, 7, 9]) ∧
      coerceToArrayBuffer (.str (coerceToBase64UrlBytes [255, 0, 128, 7, 9])) =
        .ok [255, 0, 128, 7, 9]) :=
  ⟨by decide, claim1_roundtrip_exact [255, 0, 128, 7, 9] (by decide)⟩

/-- C10: the encoder accepts a plain array without range checking: for
any list of integers (in particular outside 0..255) the call succeeds,
and each element is first reduced to a byte modulo 2^8 by the
`Uint8Array.from` coercion before encoding. -/
theorem claim10_array_coercion (l : List Int) :
    coerceToBase64Url (.arr l) = coerceToBase64Url (.uint8 (l.map toUint8)) ∧
    (∃ s, coerceToBase64Url (.arr l) = .ok s) ∧
    ∀ v ∈ l, toUint8 v < 256 ∧ (toUint8 v : Int) = v % 256 := by
  refine ⟨rfl, ⟨_, rfl⟩, ?_⟩
  intro v hv
  unfold toUint8
  omega

theorem claim10_array_coercion_witness :
    coerceToBase64Url (.arr [300, -1, 256]) =
        coerceToBase64Url (.uint8 ([300, -1, 256].map toUint8)) ∧
    (∃ s, coerceToBase64Url (.arr [300, -1, 256]) = .ok s) ∧
    ∀ v ∈ ([300, -1, 256] : List Int), toUint8 v < 256 ∧ (toUint8 v : Int) = v % 256 :=
  claim10_array_coercion [300, -1, 256]

/-- C7 counterexample: the decoder does not reject standard-base64
inputs containing `+` or `/`; the string `+A` decodes successfully, to
the same bytes as its base64url counterpart `-A`. -/
theorem claim7_counterexample :
    coerceToArrayBuffer (.str ['+', 'A']) = .ok [248] ∧
    coerceToArrayBuffer (.str ['-', 'A']) = .ok [248] :=
  ⟨rfl, rfl⟩

theorem toStdChar_idem (c : Char) : toStdChar (toStdChar c) = toStdChar c := by
  by_cases h1 : c = '-'
  · subst h1; decide
  · by_cases h2 : c = '_'
    · subst h2; decide
    · have hc : toStdChar c = c := by simp [toStdChar, h1, h2]
      rw [hc]
      exact hc

/-- C7 amended: the encoder never emits `+`, `/` or `=` for any valid
byte-sequence input, and the decoder accepts `-` and `_`; however the
decoder also accepts `+` and `/`, treating them exactly as the
corresponding base64url characters: translating the base64url alphabet
of any input into the standard alphabet never changes the decoding
result, so the two alphabets are interchangeable on the decode side
rather than distinguished. -/
theorem claim7_amended (B : List Nat) (h : ∀ b ∈ B, b < 256) (s : List Char) :
    (∀ c ∈ coerceToBase64UrlBytes B, c ≠ '+' ∧ c ≠ '/' ∧ c ≠ '=') ∧
    coerceToArrayBuffer (.str (base64UrlToBase64 s)) = coerceToArrayBuffer (.str s) := by
  constructor
  · intro c hc
    have hrw : coerceToBase64UrlBytes B = (encAux B).map toUrlChar := by
      unfold coerceToBase64UrlBytes base64ToBase64Url
      rw [dropTrailingEq_map toUrlChar toUrlChar_eq_eq_iff, dropTrailingEq_btoa B h]
    rw [hrw, List.mem_map] at hc
    obtain ⟨c0, hc0, rfl⟩ := hc
    obtain ⟨n, hn, rfl⟩ := encAux_chars B h c0 hc0
    exact toUrl_b64Char_not_special n hn
  · show atob (base64UrlToBase64 (base64UrlToBase64 s)) = atob (base64UrlToBase64 s)
    unfold base64UrlToBase64
    rw [List.map_map]
    congr 1
    exact List.map_congr_left (fun c _ => toStdChar_idem c)

theorem claim7_amended_witness :
    (∀ b ∈ ([255] : List Nat), b < 256) ∧
    ((∀ c ∈ coerceToBase64UrlBytes [255], c ≠ '+' ∧ c ≠ '/' ∧ c ≠ '=') ∧
      coerceToArrayBuffer (.str (base64UrlToBase64 ['+', '_'])) =
        coerceToArrayBuffer (.str ['+', '_'])) :=
  ⟨by decide, claim7_amended [255] (by decide) ['+', '_']⟩

/-- C4: on an unsupported browser, `register`, `signinWithId` and
`signinWithAlias` all fail immediately with the unsupported-platform
error (unwrapped, thrown before the try block) and issue no network
request at all. -/
theorem claim4_unsupported_no_fetch (cfg : Config) (token nick u a : String)
    (renv : RegisterEnv) (senv : SigninEnv)
    (hr : renv.supported = false) (hs : senv.supported = false) :
    register cfg token nick renv = ⟨[], .error unsupportedError⟩ ∧
    signinWithId cfg u senv = ⟨[], .error unsupportedError⟩ ∧
    signinWithAlias cfg a senv = ⟨[], .error unsupportedError⟩ := by
  refine ⟨?_, ?_, ?_⟩ <;>
    simp [register, signin, signinWithId, signinWithAlias, hr, hs]

theorem claim4_unsupported_no_fetch_witness :
    regEnvUnsup.supported = false ∧ sgnEnvUnsup.supported = false ∧
    (register cfg0 "tok" "nick" regEnvUnsup = ⟨[], .error unsupportedError⟩ ∧
      signinWithId cfg0 "u1" sgnEnvUnsup = ⟨[], .error unsupportedError⟩ ∧
      signinWithAlias cfg0 "a1" sgnEnvUnsup = ⟨[], .error unsupportedError⟩) :=
  ⟨rfl, rfl, claim4_unsupported_no_fetch cfg0 "tok" "nick" "u1" "a1" regEnvUnsup sgnEnvUnsup rfl rfl⟩

/-- C5: the begin-signin body carries exactly one of the `userId` and
`alias` properties — the one matching the public entry point that was
called — and omits the other entirely (it is `undefined`, which
`JSON.stringify` drops); the first network request of either sign-in
entry point carries exactly that body. -/
theorem claim5_selector_exclusive (cfg : Config) (u a : String) (env : SigninEnv)
    (hs : env.supported = true) :
    signinBeginBody cfg (.userId u) = ⟨some u, none, cfg.rpid, cfg.origin⟩ ∧
    signinBeginBody cfg (.alias a) = ⟨none, some a, cfg.rpid, cfg.origin⟩ ∧
    (signinWithId cfg u env).calls.head? = some (signinBeginRequest cfg (.userId u)) ∧
    (signinWithAlias cfg a env).calls.head? = some (signinBeginRequest cfg (.alias a)) :=
  ⟨rfl, rfl, signin_calls_head cfg (.userId u) env hs,
    signin_calls_head cfg (.alias a) env hs⟩

theorem claim5_selector_exclusive_witness :
    sgnEnv0.supported = true ∧
    (signinBeginBody cfg0 (.userId "u1") = ⟨some "u1", none, cfg0.rpid, cfg0.origin⟩ ∧
      signinBeginBody cfg0 (.alias "a1") = ⟨none, some "a1", cfg0.rpid, cfg0.origin⟩ ∧
      (signinWithId cfg0 "u1" sgnEnv0).calls.head? =
        some (signinBeginRequest cfg0 (.userId "u1")) ∧
      (signinWithAlias cfg0 "a1" sgnEnv0).calls.head? =
        some (signinBeginRequest cfg0 (.alias "a1"))) :=
  ⟨rfl, claim5_selector_exclusive cfg0 "u1" "a1" sgnEnv0 rfl⟩

/-- C3 counterexample: in the sign-in ceremony a null platform
credential does not produce the ceremony-aborted error; the failure is
the wrapped TypeError raised when the completion builder reads the
`response` property of null. -/
theorem claim3_counterexample :
    (signin cfg0 (.userId "u1") sgnEnvNull).result =
      .error (wrapSigninError nullAccessError) ∧
    (signin cfg0 (.userId "u1") sgnEnvNull).result ≠
      .error (wrapSigninError nullCredentialError) ∧
    wrapSigninError nullAccessError ≠ wrapSigninError nullCredentialError := by
  have hne : wrapSigninError nullAccessError ≠ wrapSigninError nullCredentialError := by
    decide
  refine ⟨rfl, ?_, hne⟩
  intro hcontra
  have hres : (signin cfg0 (.userId "u1") sgnEnvNull).result =
      .error (wrapSigninError nullAccessError) := rfl
  exact hne (Except.error.inj (hres.symm.trans hcontra))

/-- C3 amended: if the platform resolves to no credential, the complete
request is never issued in either ceremony; the registration ceremony
fails with the explicit ceremony-aborted error of its null check, while
the sign-in ceremony, which has no null check, fails with the TypeError
thrown when the completion builder dereferences the null credential
(wrapped at the ceremony boundary like any other chain error). -/
theorem claim3_amended (cfg : Config) (token nick : String) (m : SigninMethod)
    (renv : RegisterEnv) (senv : SigninEnv)
    (reg : RegisterBeginResponse) (ropts : BinaryRegisterOptions)
    (sgn : SigninBeginResponse) (sopts : BinarySigninOptions)
    (hrs : renv.supported = true)
    (hrb : renv.beginResult = .ok reg)
    (hrt : transcodeRegisterData reg.data = .ok ropts)
    (hrc : renv.create ropts = .ok none)
    (hss : senv.supported = true)
    (hsb : senv.beginResult = .ok sgn)
    (hst : transcodeSigninData sgn.data = .ok sopts)
    (hsg : senv.get sopts = .ok none) :
    register cfg token nick renv =
      ⟨[registerBeginRequest cfg token], .error (wrapRegisterError nullCredentialError)⟩ ∧
    signin cfg m senv =
      ⟨[signinBeginRequest cfg m], .error (wrapSigninError nullAccessError)⟩ := by
  constructor
  · simp [register, hrs, hrb, hrt, hrc]
  · simp [signin, hss, hsb, hst, hsg]

theorem claim3_amended_witness :
    transcodeRegisterData regBeginResp0.data = .ok ⟨[1, 2, 3], [4], none⟩ ∧
    transcodeSigninData sgnBeginResp0.data = .ok ⟨[1, 2, 3], none⟩ ∧
    (register cfg0 "tok" "nick" regEnvNull =
        ⟨[registerBeginRequest cfg0 "tok"], .error (wrapRegisterError nullCredentialError)⟩ ∧
      signin cfg0 (.userId "u1") sgnEnvNull =
        ⟨[signinBeginRequest cfg0 (.userId "u1")], .error (wrapSigninError nullAccessError)⟩) :=
  ⟨rfl, rfl,
    claim3_amended cfg0 "tok" "nick" (.userId "u1") regEnvNull sgnEnvNull
      regBeginResp0 ⟨[1, 2, 3], [4], none⟩ sgnBeginResp0 ⟨[1, 2, 3], none⟩
      rfl rfl rfl rfl rfl rfl rfl rfl⟩

/-- C6 counterexample: a fully successful registration run whose
backend complete response is the string "completed" resolves with
`undefined` (modelled `none`), not with the backend response: the
parsed complete-register response is discarded by `register`. -/
theorem claim6_counterexample :
    (register cfg0 "tok" "nick" regEnv0).result = .ok none ∧
    regEnv0.completeResult (registerCompleteBody cfg0 regCred0 "sess0" "nick") =
      .ok "completed" ∧
    (register cfg0 "tok" "nick" regEnv0).result ≠ .ok (some "completed") := by
  have hres : (register cfg0 "tok" "nick" regEnv0).result = .ok none := rfl
  refine ⟨hres, rfl, ?_⟩
  rw [hres]
  simp

/-- C6 amended: when every step of the registration ceremony succeeds,
`register` sends the Completion Request (the complete-register fetch is
the second and last call of the trace) and awaits the backend response,
but resolves with `undefined`: the parsed complete-register response is
discarded rather than propagated to the caller. -/
theorem claim6_amended (cfg : Config) (token nick : String) (env : RegisterEnv)
    (reg : RegisterBeginResponse) (opts : BinaryRegisterOptions)
    (credential : RegistrationCredential) (r : String)
    (hs : env.supported = true)
    (hb : env.beginResult = .ok reg)
    (ht : transcodeRegisterData reg.data = .ok opts)
    (hc : env.create opts = .ok (some credential))
    (hr : env.completeResult (registerCompleteBody cfg credential reg.sessionId nick) =
      .ok r) :
    register cfg token nick env =
      ⟨[registerBeginRequest cfg token,
        registerCompleteRequest cfg (registerCompleteBody cfg credential reg.sessionId nick)],
       .ok none⟩ := by
  simp [register, hs, hb, ht, hc, hr]

theorem claim6_amended_witness :
    regEnv0.create ⟨[1, 2, 3], [4], none⟩ = .ok (some regCred0) ∧
    (register cfg0 "tok" "nick" regEnv0 =
      ⟨[registerBeginRequest cfg0 "tok",
        registerCompleteRequest cfg0 (registerCompleteBody cfg0 regCred0 "sess0" "nick")],
       .ok none⟩) :=
  ⟨rfl,
    claim6_amended cfg0 "tok" "nick" regEnv0 regBeginResp0 ⟨[1, 2, 3], [4], none⟩
      regCred0 "completed" rfl rfl rfl rfl rfl⟩

theorem transcode_challenge (d : RegisterBeginData) (opts : BinaryRegisterOptions)
    (bs : List Nat) (hc : coerceToArrayBuffer d.challenge = .ok bs)
    (ht : transcodeRegisterData d = .ok opts) : opts.challenge = bs := by
  unfold transcodeRegisterData at ht
  rw [hc] at ht
  dsimp only at ht
  split at ht
  · exact Except.noConfusion ht
  · split at ht
    · injection ht with h
      subst h
      rfl
    · split at ht
      · exact Except.noConfusion ht
      · injection ht with h
        subst h
        rfl

/-- C2: for a begin-register response whose challenge is the base64url
string AQID, the platform create invocation receives a binary challenge
equal to the bytes 1, 2, 3 (the driver observes nothing of the create
function beyond its value on such options), and on success the
complete-register body carries a `rawId` equal to the base64url
encoding of the byte content of the platform result's raw id. -/
theorem claim2_register_dataflow (cfg : Config) (token nick sid : String)
    (uidRaw : CoerceBufferInput) (exRaw : Option (List CoerceBufferInput))
    (env : RegisterEnv) (opts : BinaryRegisterOptions)
    (hs : env.supported = true)
    (hb : env.beginResult = .ok ⟨sid, ⟨.str ['A', 'Q', 'I', 'D'], uidRaw, exRaw⟩⟩)
    (ht : transcodeRegisterData ⟨.str ['A', 'Q', 'I', 'D'], uidRaw, exRaw⟩ = .ok opts) :
    opts.challenge = [1, 2, 3] ∧
    (∀ f g : BinaryRegisterOptions → Except JsError (Option RegistrationCredential),
      (∀ o, o.challenge = [1, 2, 3] → f o = g o) →
      register cfg token nick { env with create := f } =
        register cfg token nick { env with create := g }) ∧
    (∀ credential, env.create opts = .ok (some credential) →
      (register cfg token nick env).calls =
        [registerBeginRequest cfg token,
         registerCompleteRequest cfg (registerCompleteBody cfg credential sid nick)] ∧
      (registerCompleteBody cfg credential sid nick).response.rawId =
        coerceToBase64UrlBytes credential.rawId ∧
      coerceToBase64Url (.uint8 credential.rawId) =
        .ok ((registerCompleteBody cfg credential sid nick).response.rawId)) := by
  have hch : opts.challenge = [1, 2, 3] :=
    transcode_challenge ⟨.str ['A', 'Q', 'I', 'D'], uidRaw, exRaw⟩ opts [1, 2, 3] rfl ht
  refine ⟨hch, ?_, ?_⟩
  · intro f g hfg
    have hfo : f opts = g opts := hfg opts hch
    simp only [register, hs, hb, ht, hfo]
  · intro credential hcred
    refine ⟨?_, rfl, rfl⟩
    simp only [register, hs, hb, ht, hcred, if_true]
    split <;> rfl

theorem claim2_register_dataflow_witness :
    regEnv0.supported = true ∧
    ((⟨[1, 2, 3], [4], none⟩ : BinaryRegisterOptions).challenge = [1, 2, 3] ∧
      (∀ f g : BinaryRegisterOptions → Except JsError (Option RegistrationCredential),
        (∀ o, o.challenge = [1, 2, 3] → f o = g o) →
        register cfg0 "tok" "nick" { regEnv0 with create := f } =
          register cfg0 "tok" "nick" { regEnv0 with create := g }) ∧
      (∀ credential, regEnv0.create ⟨[1, 2, 3], [4], none⟩ = .ok (some credential) →
        (register cfg0 "tok" "nick" regEnv0).calls =
          [registerBeginRequest cfg0 "tok",
           registerCompleteRequest cfg0 (registerCompleteBody cfg0 credential "sess0" "nick")] ∧
        (registerCompleteBody cfg0 credential "sess0" "nick").response.rawId =
          coerceToBase64UrlBytes credential.rawId ∧
        coerceToBase64Url (.uint8 credential.rawId) =
          .ok ((registerCompleteBody cfg0 credential "sess0" "nick").response.rawId))) :=
  ⟨rfl,
    claim2_register_dataflow cfg0 "tok" "nick" "sess0" (.str ['B', 'A']) none regEnv0
      ⟨[1, 2, 3], [4], none⟩ rfl rfl rfl⟩

/-- The original errors a registration ceremony chain can raise
against a given environment: a begin-fetch failure, a transcoding
failure, a platform rejection, the explicit null-credential error, or
a complete-fetch failure, each tied to the exact step that raised it. -/
def RegisterChainError (cfg : Config) (nick : String) (env : RegisterEnv)
    (e : JsError) : Prop :=
  env.beginResult = .error e ∨
  (∃ reg, env.beginResult = .ok reg ∧ transcodeRegisterData reg.data = .error e) ∨
  (∃ reg opts, env.beginResult = .ok reg ∧ transcodeRegisterData reg.data = .ok opts ∧
    env.create opts = .error e) ∨
  (∃ reg opts, env.beginResult = .ok reg ∧ transcodeRegisterData reg.data = .ok opts ∧
    env.create opts = .ok none ∧ e = nullCredentialError) ∨
  (∃ reg opts credential, env.beginResult = .ok reg ∧
    transcodeRegisterData reg.data = .ok opts ∧ env.create opts = .ok (some credential) ∧
    env.completeResult (registerCompleteBody cfg credential reg.sessionId nick) = .error e)

/-- The original errors a sign-in ceremony chain can raise against a
given environment. -/
def SigninChainError (cfg : Config) (env : SigninEnv) (e : JsError) : Prop :=
  env.beginResult = .error e ∨
  (∃ sgn, env.beginResult = .ok sgn ∧ transcodeSigninData sgn.data = .error e) ∨
  (∃ sgn opts, env.beginResult = .ok sgn ∧ transcodeSigninData sgn.data = .ok opts ∧
    env.get opts = .error e) ∨
  (∃ sgn opts, env.beginResult = .ok sgn ∧ transcodeSigninData sgn.data = .ok opts ∧
    env.get opts = .ok none ∧ e = nullAccessError) ∨
  (∃ sgn opts credential, env.beginResult = .ok sgn ∧
    transcodeSigninData sgn.data = .ok opts ∧ env.get opts = .ok (some credential) ∧
    env.completeResult (signinCompleteBody cfg credential sgn.sessionId) = .error e)

/-- A concrete network failure. -/
def netErr0 : JsError := ⟨"TypeError", "Failed to fetch"⟩

/-- A registration environment whose begin fetch fails. -/
def regEnvBeginFail : RegisterEnv :=
  ⟨true, .error netErr0, fun _ => .ok (some regCred0), fun _ => .ok "completed"⟩

/-- A sign-in environment whose complete fetch fails. -/
def sgnEnvCompleteFail : SigninEnv :=
  ⟨true, .ok sgnBeginResp0, fun _ => .ok (some sgnCred0), fun _ => .error netErr0⟩

/-- C8: once the capability guard has passed, every run of either
ceremony either fully succeeds (a successful registration has issued
both requests; a successful sign-in has issued both requests and
returns exactly the `data` field of the parsed complete response — no
partial success exists) or fails with exactly one ceremony-level error
that wraps precisely the error raised by the failing step of its
begin/transcode/invoke/complete chain, embedding that original
message. -/
theorem claim8_error_boundary (cfg : Config) (token nick : String) (m : SigninMethod)
    (renv : RegisterEnv) (senv : SigninEnv)
    (hr : renv.supported = true) (hs : senv.supported = true) :
    ((∃ credential sid,
        (register cfg token nick renv).calls =
          [registerBeginRequest cfg token,
           registerCompleteRequest cfg (registerCompleteBody cfg credential sid nick)] ∧
        (register cfg token nick renv).result = .ok none) ∨
      ∃ e, RegisterChainError cfg nick renv e ∧
        (register cfg token nick renv).result = .error (wrapRegisterError e)) ∧
    ((∃ body r, senv.completeResult body = .ok r ∧
        signin cfg m senv =
          ⟨[signinBeginRequest cfg m, signinCompleteRequest cfg body], .ok r.data⟩) ∨
      ∃ e, SigninChainError cfg senv e ∧
        (signin cfg m senv).result = .error (wrapSigninError e)) := by
  constructor
  · unfold register
    split
    · split
      · rename_i e heq
        exact Or.inr ⟨e, Or.inl heq, rfl⟩
      · rename_i registration heq
        split
        · rename_i e heq2
          exact Or.inr ⟨e, Or.inr (Or.inl ⟨registration, heq, heq2⟩), rfl⟩
        · rename_i opts heq2
          split
          · rename_i e heq3
            exact Or.inr ⟨e,
              Or.inr (Or.inr (Or.inl ⟨registration, opts, heq, heq2, heq3⟩)), rfl⟩
          · rename_i heq3
            exact Or.inr ⟨nullCredentialError,
              Or.inr (Or.inr (Or.inr (Or.inl ⟨registration, opts, heq, heq2, heq3, rfl⟩))),
              rfl⟩
          · rename_i credential heq3
            dsimp only
            split
            · rename_i e heq4
              exact Or.inr ⟨e,
                Or.inr (Or.inr (Or.inr (Or.inr
                  ⟨registration, opts, credential, heq, heq2, heq3, heq4⟩))), rfl⟩
            · exact Or.inl ⟨_, _, rfl, rfl⟩
    · rename_i hns
      exact absurd hr hns
  · unfold signin
    split
    · split
      · rename_i e heq
        exact Or.inr ⟨e, Or.inl heq, rfl⟩
      · rename_i sgn heq
        split
        · rename_i e heq2
          exact Or.inr ⟨e, Or.inr (Or.inl ⟨sgn, heq, heq2⟩), rfl⟩
        · rename_i opts heq2
          split
          · rename_i e heq3
            exact Or.inr ⟨e, Or.inr (Or.inr (Or.inl ⟨sgn, opts, heq, heq2, heq3⟩)), rfl⟩
          · rename_i heq3
            exact Or.inr ⟨nullAccessError,
              Or.inr (Or.inr (Or.inr (Or.inl ⟨sgn, opts, heq, heq2, heq3, rfl⟩))), rfl⟩
          · rename_i credential heq3
            dsimp only
            split
            · rename_i e heq4
              exact Or.inr ⟨e,
                Or.inr (Or.inr (Or.inr (Or.inr
                  ⟨sgn, opts, credential, heq, heq2, heq3, heq4⟩))), rfl⟩
            · rename_i r heq4
              exact Or.inl ⟨_, r, heq4, rfl⟩
    · rename_i hns
      exact absurd hs hns

theorem claim8_error_boundary_witness :
    regEnvBeginFail.supported = true ∧ sgnEnvCompleteFail.supported = true ∧
    (register cfg0 "tok" "nick" regEnvBeginFail).result =
      .error (wrapRegisterError netErr0) ∧
    (signin cfg0 (.userId "u1") sgnEnvCompleteFail).result =
      .error (wrapSigninError netErr0) ∧
    (((∃ credential sid,
        (register cfg0 "tok" "nick" regEnvBeginFail).calls =
          [registerBeginRequest cfg0 "tok",
           registerCompleteRequest cfg0 (registerCompleteBody cfg0 credential sid "nick")] ∧
        (register cfg0 "tok" "nick" regEnvBeginFail).result = .ok none) ∨
      ∃ e, RegisterChainError cfg0 "nick" regEnvBeginFail e ∧
        (register cfg0 "tok" "nick" regEnvBeginFail).result = .error (wrapRegisterError e)) ∧
     ((∃ body r, sgnEnvCompleteFail.completeResult body = .ok r ∧
        signin cfg0 (.userId "u1") sgnEnvCompleteFail =
          ⟨[signinBeginRequest cfg0 (.userId "u1"), signinCompleteRequest cfg0 body],
           .ok r.data⟩) ∨
      ∃ e, SigninChainError cfg0 sgnEnvCompleteFail e ∧
        (signin cfg0 (.userId "u1") sgnEnvCompleteFail).result =
          .error (wrapSigninError e))) :=
  ⟨rfl, rfl, rfl, rfl,
    claim8_error_boundary cfg0 "tok" "nick" (.userId "u1") regEnvBeginFail sgnEnvCompleteFail
      rfl rfl⟩

/-- C9: the configuration is never mutated after construction; in the
model it is threaded read-only, and consequently every request a
ceremony issues — begin and complete alike — carries the same
relying-party id, the same origin and the same headers, all drawn from
the one configuration, so the begin and complete calls of a single
ceremony agree on them. -/
theorem claim9_config_constant (cfg : Config) (token nick : String) (m : SigninMethod)
    (renv : RegisterEnv) (senv : SigninEnv) :
    (∀ req ∈ (register cfg token nick renv).calls,
      req.body.rpidOf = cfg.rpid ∧ req.body.originOf = cfg.origin ∧
        req.headers = createHeaders cfg) ∧
    (∀ req ∈ (signin cfg m senv).calls,
      req.body.rpidOf = cfg.rpid ∧ req.body.originOf = cfg.origin ∧
        req.headers = createHeaders cfg) := by
  constructor
  · intro req hreq
    rcases register_calls_shape cfg token nick renv with hsh | hsh | ⟨credential, sid, hsh⟩ <;>
      rw [hsh] at hreq
    · exact absurd hreq (List.not_mem_nil req)
    · rw [List.mem_singleton] at hreq
      subst hreq
      exact ⟨rfl, rfl, rfl⟩
    · rcases List.mem_cons.mp hreq with h1 | h2
      · subst h1
        exact ⟨rfl, rfl, rfl⟩
      · rw [List.mem_singleton] at h2
        subst h2
        exact ⟨rfl, rfl, rfl⟩
  · intro req hreq
    rcases signin_calls_shape cfg m senv with hsh | hsh | ⟨credential, sid, hsh⟩ <;>
      rw [hsh] at hreq
    · exact absurd hreq (List.not_mem_nil req)
    · rw [List.mem_singleton] at hreq
      subst hreq
      exact ⟨rfl, rfl, rfl⟩
    · rcases List.mem_cons.mp hreq with h1 | h2
      · subst h1
        exact ⟨rfl, rfl, rfl⟩
      · rw [List.mem_singleton] at h2
        subst h2
        exact ⟨rfl, rfl, rfl⟩

theorem claim9_config_constant_witness :
    (∀ req ∈ (register cfg0 "tok" "nick" regEnv0).calls,
      req.body.rpidOf = cfg0.rpid ∧ req.body.originOf = cfg0.origin ∧
        req.headers = createHeaders cfg0) ∧
    (∀ req ∈ (signin cfg0 (.userId "u1") sgnEnv0).calls,
      req.body.rpidOf = cfg0.rpid ∧ req.body.originOf = cfg0.origin ∧
        req.headers = createHeaders cfg0) :=
  claim9_config_constant cfg0 "tok" "nick" (.userId "u1") regEnv0 sgnEnv0
